import Mathlib

/-!
Verification development for the Discord voice event reminder bot.

The definitions below are a shallow embedding of the orchestration core:
the per-channel execution pipeline of the event scheduler
(src/scheduler/cron.js), the audio-rotation resolver and the static event
table (src/scheduler/events.js), the voice connection manager
(src/voice/connection.js), the audio playback driver (src/audio/player.js)
and the TTS generator with its MD5-fingerprinted cache (src/tts/generator.js).

External collaborators (the Discord gateway, the voice transport, the
speech-synthesis service, the filesystem) are modelled as explicit
parameters: functions from identifiers to outcomes.  Side effects of the
pipeline are recorded as an explicit trace of `Effect` values.
-/

/-- Local wall-clock time after conversion to the configured time zone,
as read from the `Date` object in `_isMaintenanceWindow`. -/
structure LocalTime where
  dayOfWeek : Nat
  hours : Nat
  minutes : Nat
deriving DecidableEq, Repr

/-- Embedding of `EventScheduler._isMaintenanceWindow` (src/scheduler/cron.js):
Tuesday (day 2), from minute 810 (13:30) inclusive to minute 1170 (19:30)
exclusive. -/
def isMaintenanceWindow (t : LocalTime) : Bool :=
  let currentTimeInMinutes := t.hours * 60 + t.minutes
  let isTuesday := t.dayOfWeek == 2
  let startTime := 13 * 60 + 30
  let endTime := 19 * 60 + 30
  isTuesday && decide (startTime ≤ currentTimeInMinutes)
    && decide (currentTimeInMinutes < endTime)

/-- Event kinds from `EventType` in src/scheduler/events.js. -/
inductive EventType
  | audio
  | audioRotate
  | tts
deriving DecidableEq, Repr

/-- Event definition record from src/scheduler/events.js.  The
`requireUsers` field is `Option Bool` because the JavaScript property may
be absent (`undefined`); the pipeline tests `event.requireUsers !== false`,
which is true for an absent property. -/
structure Event where
  name : String
  cron : String
  type : EventType
  content : String
  enabled : Bool
  requireUsers : Option Bool
deriving DecidableEq, Repr

/-- Outcome of a `voiceManager.connectToChannel` call as observed by the
pipeline: the call may throw, may return a null connection, or may return
a live connection (identified here by a numeric session id). -/
inductive ConnectOutcome
  | throws
  | nullConn
  | ok (sessionId : Nat)
deriving DecidableEq, Repr

/-- The slice of a fetched voice channel the pipeline reads:
`channel.guild.id`. -/
structure ChannelInfo where
  guildId : String
deriving DecidableEq, Repr

/-- Side effects performed by the per-channel execution pipeline, recorded
in order: the occupancy lookup, the connect attempt, the playback request
and the disconnect request. -/
inductive Effect
  | checkUsers (channelId : String)
  | connect (channelId : String)
  | play (path : String)
  | disconnect (guildId : String)
deriving DecidableEq, Repr

/-- Exit of one `_executeEventForChannel` run.  The JavaScript function
never throws: every failure is either an early `return` or lands in the
`catch` branch. -/
inductive ExecResult
  | skippedMaintenance
  | skippedNoUsers
  | channelNotFound
  | connectFailed
  | errorCaught
  | completed
deriving DecidableEq, Repr

/-- Environment of one pipeline run: the current time, the collaborator
outcomes per channel id, the pre-generated TTS map, the TTS generator
outcome, the registered audio sets and the playback outcome per path. -/
structure ExecEnv where
  now : LocalTime
  hour : Nat
  hasUsers : String → Bool
  fetchChannel : String → Option ChannelInfo
  connectRes : String → ConnectOutcome
  pregenerated : String → Option String
  ttsGenerate : String → Except String String
  sets : String → Option (List String)
  playback : String → Except String Unit

/-- Embedding of `getRotatedAudio` (src/scheduler/events.js): look up the
named set, throw if missing or empty, otherwise index by
`hour % set.length`. -/
def getRotatedAudio (sets : String → Option (List String)) (hour : Nat)
    (setName : String) : Except String String :=
  match sets setName with
  | none => Except.error ("Audio set not found: " ++ setName)
  | some set =>
    if set.length = 0 then Except.error ("Audio set not found: " ++ setName)
    else Except.ok (set.getD (hour % set.length) "")

/-- Asset resolution step of `_executeEventForChannel`: pre-generated TTS
or on-the-fly generation for TTS events, hour rotation for rotate events,
the literal content for direct audio events. -/
def resolveAsset (env : ExecEnv) (event : Event) : Except String String :=
  match event.type with
  | EventType.tts =>
    match env.pregenerated event.name with
    | some p => Except.ok p
    | none => env.ttsGenerate event.content
  | EventType.audioRotate => getRotatedAudio env.sets env.hour event.content
  | EventType.audio => Except.ok event.content

/-- Tail of `_executeEventForChannel` after the maintenance and occupancy
gates: fetch the channel, connect, resolve the asset, play, and in the
`finally` branch request a disconnect whenever a connection was obtained. -/
def runAfterGates (env : ExecEnv) (event : Event) (channelId : String)
    (eff0 : List Effect) : ExecResult × List Effect :=
  match env.fetchChannel channelId with
  | none => (ExecResult.channelNotFound, eff0)
  | some ch =>
    let eff1 := eff0 ++ [Effect.connect channelId]
    match env.connectRes channelId with
    | ConnectOutcome.throws => (ExecResult.errorCaught, eff1)
    | ConnectOutcome.nullConn => (ExecResult.connectFailed, eff1)
    | ConnectOutcome.ok _ =>
      match resolveAsset env event with
      | Except.error _ =>
        (ExecResult.errorCaught, eff1 ++ [Effect.disconnect ch.guildId])
      | Except.ok path =>
        let eff2 := eff1 ++ [Effect.play path]
        match env.playback path with
        | Except.error _ =>
          (ExecResult.errorCaught, eff2 ++ [Effect.disconnect ch.guildId])
        | Except.ok _ =>
          (ExecResult.completed, eff2 ++ [Effect.disconnect ch.guildId])

/-- Embedding of `EventScheduler._executeEventForChannel`
(src/scheduler/cron.js): maintenance gate first, then the occupancy gate
(`event.requireUsers !== false` defaults to requiring users), then the
connect/resolve/play sequence with guaranteed disconnect. -/
def executeEventForChannel (env : ExecEnv) (event : Event)
    (channelId : String) : ExecResult × List Effect :=
  if isMaintenanceWindow env.now then
    (ExecResult.skippedMaintenance, [])
  else if event.requireUsers != some false then
    if env.hasUsers channelId then
      runAfterGates env event channelId [Effect.checkUsers channelId]
    else
      (ExecResult.skippedNoUsers, [Effect.checkUsers channelId])
  else
    runAfterGates env event channelId []

/-- Embedding of `getEnabledEvents` (src/scheduler/events.js). -/
def getEnabledEvents (evts : List Event) : List Event :=
  evts.filter (fun e => e.enabled)

/-- Names registered with a timer by `EventScheduler.initialize` together
with `scheduleEvent`: only enabled events are enumerated, and
`scheduleEvent` refuses an event whose cron expression does not validate. -/
def startupScheduledJobs (cronValid : String → Bool) (evts : List Event) :
    List String :=
  ((getEnabledEvents evts).filter (fun e => cronValid e.cron)).map
    (fun e => e.name)

/-- Embedding of `EventScheduler._executeEventForAllChannels`: the event is
run through the per-channel pipeline for every configured channel id
(`Promise.allSettled` collects all outcomes). -/
def executeEventForAllChannels (env : ExecEnv) (channelIds : List String)
    (event : Event) : List (ExecResult × List Effect) :=
  channelIds.map (fun c => executeEventForChannel env event c)

/-- Embedding of `EventScheduler.triggerEvent`: the event is looked up by
name in the full `events` list (not the enabled subset) and, when found,
executed for all configured channels. -/
def triggerEvent (env : ExecEnv) (channelIds : List String)
    (evts : List Event) (eventName : String) :
    Option (List (ExecResult × List Effect)) :=
  match evts.find? (fun e => e.name == eventName) with
  | none => none
  | some e => some (executeEventForAllChannels env channelIds e)

/-- Helper mirroring `path.join(dir, file)` as used with forward-slash
paths throughout the repository. -/
def pathJoin (dir file : String) : String := dir ++ "/" ++ file

/-- Concrete audio rotation sets from src/scheduler/events.js,
parameterised by the configured audio directory. -/
def audioSetsTable (audioDir : String) : String → Option (List String) :=
  fun setName =>
    if setName = "shugo15" then
      some
        [pathJoin audioDir ("shugo.mp3"), pathJoin audioDir ("shugo_1.mp3"),
          pathJoin audioDir ("shugo_2.mp3")]
    else if setName = "shugo10" then
      some
        [pathJoin audioDir ("shugo5.mp3"), pathJoin audioDir ("shugo5_1.mp3"),
          pathJoin audioDir ("shugo5_2.mp3")]
    else none

/-- State of the voice connection layer: the library-wide registry read by
`getVoiceConnection`, the bookkeeping map `this.connections` of the
manager, a counter for fresh session ids, the queue of scheduled delayed
disconnect callbacks, and a count of `destroy` invocations on the
transport. -/
structure Session where
  sessionId : Nat
  channelId : String
deriving DecidableEq, Repr

/-- Mutable state of `VoiceConnectionManager` plus the library session
registry consulted by `getVoiceConnection`. -/
structure VoiceState where
  registry : String → Option Session
  connections : String → Option Session
  nextId : Nat
  pending : List String
  destroys : Nat

/-- Branch of `connectToChannel` that calls `joinVoiceChannel`: the library
registers the new session for the guild immediately; on a successful wait
for Ready the manager also stores it in `this.connections`; on a timeout
the call throws and leaves cleanup to the observer path. -/
def attemptJoin (st : VoiceState) (guildId channelId : String)
    (ready : Bool) : Except Unit Session × VoiceState × Bool :=
  let s : Session := { sessionId := st.nextId, channelId := channelId }
  let registry2 := fun g => if g = guildId then some s else st.registry g
  if ready then
    (Except.ok s,
      { st with
        registry := registry2,
        connections := fun g => if g = guildId then some s else st.connections g,
        nextId := st.nextId + 1 },
      true)
  else
    (Except.error (),
      { st with registry := registry2, nextId := st.nextId + 1 },
      true)

/-- Embedding of `VoiceConnectionManager.connectToChannel`
(src/voice/connection.js).  The boolean result records whether a new
transport session was opened (`joinVoiceChannel` was called). -/
def connectToChannel (st : VoiceState) (guildId channelId : String)
    (ready : Bool) : Except Unit Session × VoiceState × Bool :=
  match st.registry guildId with
  | some existing =>
    if existing.channelId = channelId then (Except.ok existing, st, false)
    else attemptJoin st guildId channelId ready
  | none => attemptJoin st guildId channelId ready

/-- Embedding of `VoiceConnectionManager.disconnectFromChannel`: when a
session exists for the guild, a delayed teardown callback is scheduled;
otherwise nothing happens.  The call itself never destroys anything. -/
def disconnectFromChannel (st : VoiceState) (guildId : String) : VoiceState :=
  match st.registry guildId with
  | some _ => { st with pending := st.pending ++ [guildId] }
  | none => st

/-- Firing of one scheduled teardown callback: re-read the registry; if a
session is still there, destroy it (which deregisters it from the library
registry) and delete the bookkeeping entry; otherwise only delete the
bookkeeping entry. -/
def fireDisconnectTimer (st : VoiceState) (guildId : String) : VoiceState :=
  match st.registry guildId with
  | some _ =>
    { st with
      registry := fun g => if g = guildId then none else st.registry g,
      connections := fun g => if g = guildId then none else st.connections g,
      destroys := st.destroys + 1 }
  | none =>
    { st with
      connections := fun g => if g = guildId then none else st.connections g }

/-- Kinds of completion observers `playFile` registers on the shared audio
player: the idle observer and the error observer. -/
inductive ObsKind
  | idle
  | err
deriving DecidableEq, Repr

/-- Settlement of one `playFile` promise. -/
inductive Outcome
  | resolved
  | rejected
deriving DecidableEq, Repr

/-- State of the shared playback engine as seen by `playFile`
(src/audio/player.js): the observers currently registered on the player,
tagged by the play invocation that owns them, and the settled promises. -/
structure PlayerState where
  observers : List (Nat × ObsKind)
  completions : List (Nat × Outcome)
deriving DecidableEq, Repr

/-- Embedding of `AudioPlayerManager.playFile`: after the existence check
the call registers a once-idle observer and a once-error observer owned by
this play invocation and returns a pending promise.  A missing file throws
before any observer is registered. -/
def playFile (st : PlayerState) (fileExists : Bool) (playId : Nat) :
    Except String PlayerState :=
  if fileExists then
    Except.ok
      { st with
        observers :=
          st.observers ++ [(playId, ObsKind.idle), (playId, ObsKind.err)] }
  else Except.error ("Audio file not found")

/-- The engine reports idle: every registered idle observer fires once; the
handler of each firing play resolves its promise and its `cleanup` detaches
both observers of that play. -/
def fireIdle (st : PlayerState) : PlayerState :=
  let firingIds :=
    (st.observers.filter (fun o => o.2 == ObsKind.idle)).map (fun o => o.1)
  { observers := st.observers.filter (fun o => !(firingIds.contains o.1)),
    completions :=
      st.completions ++ firingIds.map (fun i => (i, Outcome.resolved)) }

/-- The engine reports an error: every registered error observer fires
once; the handler of each firing play rejects its promise and its
`cleanup` detaches both observers of that play. -/
def fireError (st : PlayerState) : PlayerState :=
  let firingIds :=
    (st.observers.filter (fun o => o.2 == ObsKind.err)).map (fun o => o.1)
  { observers := st.observers.filter (fun o => !(firingIds.contains o.1)),
    completions :=
      st.completions ++ firingIds.map (fun i => (i, Outcome.rejected)) }

/-- Bytes of a string.  The TTS cache key hashes the UTF-8 encoding of the
fingerprint string; for the ASCII and Latin-1 code points used by the
repository configuration this agrees with the code points below 128 and is
only applied to such strings in this development. -/
def strBytes (s : String) : List Nat :=
  s.data.map (fun c => c.toNat)

/-- Addition modulo two to the thirty-second. -/
def add32 (a b : Nat) : Nat := (a + b) % 4294967296

/-- Bitwise complement on thirty-two bits. -/
def not32 (a : Nat) : Nat := Nat.xor a 4294967295

/-- Left rotation of a thirty-two bit word. -/
def rotl32 (x n : Nat) : Nat :=
  Nat.lor ((x <<< n) % 4294967296) (x >>> (32 - n))

/-- Little-endian byte expansion of a natural number to a fixed width. -/
def leBytes (n : Nat) : Nat → List Nat
  | 0 => []
  | k + 1 => (n % 256) :: leBytes (n / 256) k

/-- MD5 message padding: a single 0x80 byte, zero bytes up to 56 modulo 64,
then the bit length as a 64-bit little-endian quantity. -/
def padMessage (msg : List Nat) : List Nat :=
  let len := msg.length
  let padZeros := (119 - len % 64) % 64
  msg ++ [128] ++ List.replicate padZeros 0 ++
    leBytes ((len * 8) % 18446744073709551616) 8

/-- Group a little-endian byte list into thirty-two bit words. -/
def bytesToWords : List Nat → List Nat
  | b0 :: b1 :: b2 :: b3 :: rest =>
    (b0 + 256 * b1 + 65536 * b2 + 16777216 * b3) :: bytesToWords rest
  | _ => []

/-- Split a byte list into 64-byte blocks; the fuel argument makes the
recursion structural and is instantiated with the list length. -/
def chunks64 : Nat → List Nat → List (List Nat)
  | 0, _ => []
  | _, [] => []
  | fuel + 1, l => l.take 64 :: chunks64 fuel (l.drop 64)

/-- MD5 sine-derived round constants. -/
def md5K : List Nat :=
  [0xd76aa478, 0xe8c7b756, 0x242070db, 0xc1bdceee,
   0xf57c0faf, 0x4787c62a, 0xa8304613, 0xfd469501,
   0x698098d8, 0x8b44f7af, 0xffff5bb1, 0x895cd7be,
   0x6b901122, 0xfd987193, 0xa679438e, 0x49b40821,
   0xf61e2562, 0xc040b340, 0x265e5a51, 0xe9b6c7aa,
   0xd62f105d, 0x02441453, 0xd8a1e681, 0xe7d3fbc8,
   0x21e1cde6, 0xc33707d6, 0xf4d50d87, 0x455a14ed,
   0xa9e3e905, 0xfcefa3f8, 0x676f02d9, 0x8d2a4c8a,
   0xfffa3942, 0x8771f681, 0x6d9d6122, 0xfde5380c,
   0xa4beea44, 0x4bdecfa9, 0xf6bb4b60, 0xbebfbc70,
   0x289b7ec6, 0xeaa127fa, 0xd4ef3085, 0x04881d05,
   0xd9d4d039, 0xe6db99e5, 0x1fa27cf8, 0xc4ac5665,
   0xf4292244, 0x432aff97, 0xab9423a7, 0xfc93a039,
   0x655b59c3, 0x8f0ccc92, 0xffeff47d, 0x85845dd1,
   0x6fa87e4f, 0xfe2ce6e0, 0xa3014314, 0x4e0811a1,
   0xf7537e82, 0xbd3af235, 0x2ad7d2bb, 0xeb86d391]

/-- MD5 per-round left-rotation amounts. -/
def md5S : List Nat :=
  [7, 12, 17, 22, 7, 12, 17, 22, 7, 12, 17, 22, 7, 12, 17, 22,
   5, 9, 14, 20, 5, 9, 14, 20, 5, 9, 14, 20, 5, 9, 14, 20,
   4, 11, 16, 23, 4, 11, 16, 23, 4, 11, 16, 23, 4, 11, 16, 23,
   6, 10, 15, 21, 6, 10, 15, 21, 6, 10, 15, 21, 6, 10, 15, 21]

/-- MD5 nonlinear mixing function for round index i. -/
def md5F (i b c d : Nat) : Nat :=
  if i < 16 then Nat.lor (Nat.land b c) (Nat.land (not32 b) d)
  else if i < 32 then Nat.lor (Nat.land d b) (Nat.land (not32 d) c)
  else if i < 48 then Nat.xor b (Nat.xor c d)
  else Nat.xor c (Nat.lor b (not32 d))

/-- MD5 message word index for round index i. -/
def md5G (i : Nat) : Nat :=
  if i < 16 then i
  else if i < 32 then (5 * i + 1) % 16
  else if i < 48 then (3 * i + 5) % 16
  else (7 * i) % 16

/-- One MD5 round applied to the running (a, b, c, d) state. -/
def md5Round (M : List Nat) (st : Nat × Nat × Nat × Nat) (i : Nat) :
    Nat × Nat × Nat × Nat :=
  let a := st.1
  let b := st.2.1
  let c := st.2.2.1
  let d := st.2.2.2
  let f := (md5F i b c d + a + md5K.getD i 0 + M.getD (md5G i) 0) % 4294967296
  (d, add32 b (rotl32 f (md5S.getD i 0)), b, c)

/-- Process one 64-byte block through the 64 MD5 rounds and add the result
to the incoming state. -/
def md5Block (st : Nat × Nat × Nat × Nat) (block : List Nat) :
    Nat × Nat × Nat × Nat :=
  let M := bytesToWords block
  let r := (List.range 64).foldl (md5Round M) st
  (add32 st.1 r.1, add32 st.2.1 r.2.1, add32 st.2.2.1 r.2.2.1,
    add32 st.2.2.2 r.2.2.2)

/-- MD5 digest of a byte list, as sixteen bytes. -/
def md5Digest (msg : List Nat) : List Nat :=
  let padded := padMessage msg
  let final :=
    (chunks64 padded.length padded).foldl md5Block
      (0x67452301, 0xefcdab89, 0x98badcfe, 0x10325476)
  leBytes final.1 4 ++ leBytes final.2.1 4 ++ leBytes final.2.2.1 4 ++
    leBytes final.2.2.2 4

/-- Lowercase hexadecimal digit. -/
def hexDigit (n : Nat) : Char :=
  if n < 10 then Char.ofNat (48 + n) else Char.ofNat (87 + n)

/-- Two-character lowercase hexadecimal rendering of a byte. -/
def byteToHex (b : Nat) : String :=
  String.mk [hexDigit (b / 16), hexDigit (b % 16)]

/-- Lowercase hexadecimal MD5 digest of a byte list, matching
`crypto.createHash(md5).update(s).digest(hex)`. -/
def md5hex (msg : List Nat) : String :=
  String.join ((md5Digest msg).map byteToHex)

/-- TTS-relevant slice of the environment configuration (src/config.js):
the cache directory and the process-wide voice, rate and pitch defaults. -/
structure TTSConfig where
  cacheDir : String
  voice : String
  rate : String
  pitch : String
deriving DecidableEq, Repr

/-- Default TTS configuration values from src/config.js. -/
def defaultTTSConfig : TTSConfig :=
  { cacheDir := "./cache", voice := "es-MX-DaliaNeural",
    rate := "+0%", pitch := "+0Hz" }

/-- Embedding of `TTSGenerator._getCacheKey` (src/tts/generator.js): the
MD5 hex digest of the string `text|voice|rate|pitch`, where rate and pitch
are read from the process configuration, wrapped as a `.mp3` file name. -/
def getCacheKey (cfg : TTSConfig) (text voice : String) : String :=
  "tts_" ++
    md5hex
      (strBytes (text ++ "|" ++ voice ++ "|" ++ cfg.rate ++ "|" ++ cfg.pitch))
    ++ ".mp3"

/-- Embedding of `TTSGenerator.getCached`: the joined cache path when the
file exists in the cache directory, null otherwise.  The cache directory
contents stand in for the filesystem `existsSync` check. -/
def getCached (cfg : TTSConfig) (files : List String) (text voice : String) :
    Option String :=
  let cacheFile := pathJoin cfg.cacheDir (getCacheKey cfg text voice)
  if cacheFile ∈ files then some cacheFile else none

/-- Options object accepted by `TTSGenerator.generate`; absent properties
are `none`.  The rate and pitch options are passed to the synthesis
collaborator only and do not reach the cache key. -/
structure GenOptions where
  voice : Option String
  rate : Option String
  pitch : Option String
  useCache : Option Bool
deriving DecidableEq, Repr

/-- State of the TTS generator: the files present in the cache directory
and the number of invocations of the synthesis collaborator. -/
structure TTSState where
  files : List String
  synthCalls : Nat
deriving DecidableEq, Repr

/-- Embedding of `TTSGenerator.generate`: resolve the effective voice,
consult the cache unless `useCache` is explicitly false, and on a miss
invoke the synthesis collaborator and persist the artifact under the
fingerprinted cache path.  The `synthOk` parameter is the outcome of the
synthesis collaborator; a failed synthesis throws after having been
invoked. -/
def generate (cfg : TTSConfig) (st : TTSState) (text : String)
    (opts : GenOptions) (synthOk : Bool) : Except Unit String × TTSState :=
  let voice := opts.voice.getD cfg.voice
  let useCache := opts.useCache != some false
  match (if useCache then getCached cfg st.files text voice else none) with
  | some cached => (Except.ok cached, st)
  | none =>
    let cacheFile := pathJoin cfg.cacheDir (getCacheKey cfg text voice)
    if synthOk then
      (Except.ok cacheFile,
        { files := st.files ++ [cacheFile], synthCalls := st.synthCalls + 1 })
    else
      (Except.error (),
        { files := st.files, synthCalls := st.synthCalls + 1 })

/-- Concrete pipeline environment used by the evaluation witnesses: no
maintenance window, an occupied fetchable channel whose connect succeeds,
and collaborators that succeed. -/
def baseEnv : ExecEnv :=
  { now := { dayOfWeek := 0, hours := 0, minutes := 0 },
    hour := 7,
    hasUsers := fun _ => true,
    fetchChannel := fun _ => some { guildId := "g1" },
    connectRes := fun _ => ConnectOutcome.ok 1,
    pregenerated := fun _ => none,
    ttsGenerate := fun t => Except.ok t,
    sets := audioSetsTable ("./audio"),
    playback := fun _ => Except.ok () }

/-- Concrete event used by the evaluation witnesses. -/
def sampleEvent : Event :=
  { name := "Shugo 15 min", cron := "0 15 * * * *",
    type := EventType.audioRotate, content := "shugo15",
    enabled := true, requireUsers := some true }

/-- C1: when the requireUsers flag is absent or true and the channel has
zero qualifying participants, the per-channel pipeline performs no connect
and no playback side effect and completes without error, returning after
logging the skip. -/
theorem occupancy_gate_skips (env : ExecEnv) (event : Event)
    (channelId : String) (hreq : event.requireUsers ≠ some false)
    (husers : env.hasUsers channelId = false) :
    (∀ c, Effect.connect c ∉ (executeEventForChannel env event channelId).2) ∧
    (∀ p, Effect.play p ∉ (executeEventForChannel env event channelId).2) ∧
    ((executeEventForChannel env event channelId).1 =
        ExecResult.skippedMaintenance ∨
      (executeEventForChannel env event channelId).1 =
        ExecResult.skippedNoUsers) := by
  unfold executeEventForChannel
  by_cases hm : isMaintenanceWindow env.now
  · simp [hm]
  · have hb : (event.requireUsers != some false) = true := by
      simpa [bne_iff_ne] using hreq
    simp [hm, hb, husers]

/-- Evaluation witness for the occupancy gate theorem at a concrete
environment and event. -/
theorem occupancy_gate_skips_witness :
    sampleEvent.requireUsers ≠ some false ∧
    ({ baseEnv with hasUsers := fun _ => false } : ExecEnv).hasUsers
        ("c1") = false ∧
    ((∀ c, Effect.connect c ∉
        (executeEventForChannel { baseEnv with hasUsers := fun _ => false }
          sampleEvent ("c1")).2) ∧
      (∀ p, Effect.play p ∉
        (executeEventForChannel { baseEnv with hasUsers := fun _ => false }
          sampleEvent ("c1")).2) ∧
      ((executeEventForChannel { baseEnv with hasUsers := fun _ => false }
            sampleEvent ("c1")).1 = ExecResult.skippedMaintenance ∨
        (executeEventForChannel { baseEnv with hasUsers := fun _ => false }
            sampleEvent ("c1")).1 = ExecResult.skippedNoUsers)) :=
  ⟨by decide, rfl,
    occupancy_gate_skips { baseEnv with hasUsers := fun _ => false }
      sampleEvent ("c1") (by decide) rfl⟩

/-- C4: resolving a registered rotation set of length at least one at any
hour between 0 and 23 returns exactly the element at index hour modulo the
set length; the resolver is a pure function of the set table and the hour. -/
theorem rotation_resolves_mod (sets : String → Option (List String))
    (setName : String) (R : List String) (hour : Nat)
    (hreg : sets setName = some R) (hlen : 1 ≤ R.length)
    (hhour : hour ≤ 23) :
    getRotatedAudio sets hour setName =
      Except.ok (R.getD (hour % R.length) "") := by
  unfold getRotatedAudio
  rw [hreg]
  have hne : R.length ≠ 0 := by omega
  simp [hne]

/-- Evaluation witness for the rotation theorem on the concrete shugo15
set at hour 7. -/
theorem rotation_resolves_mod_witness :
    audioSetsTable ("./audio") ("shugo15") =
      some ["./audio/shugo.mp3", "./audio/shugo_1.mp3",
        "./audio/shugo_2.mp3"] ∧
    1 ≤ (["./audio/shugo.mp3", "./audio/shugo_1.mp3",
        "./audio/shugo_2.mp3"] : List String).length ∧
    (7 : Nat) ≤ 23 ∧
    getRotatedAudio (audioSetsTable ("./audio")) 7 ("shugo15") =
      Except.ok ((["./audio/shugo.mp3", "./audio/shugo_1.mp3",
        "./audio/shugo_2.mp3"] : List String).getD (7 % 3) "") :=
  ⟨by decide, by decide, by decide,
    rotation_resolves_mod (audioSetsTable ("./audio")) ("shugo15")
      ["./audio/shugo.mp3", "./audio/shugo_1.mp3", "./audio/shugo_2.mp3"] 7
      (by decide) (by decide) (by decide)⟩

/-- C5: whenever the current time lies in the maintenance window, defined
as Tuesday with minute of day in the half-open interval from 810 to 1170,
the pipeline returns immediately with an empty effect trace, so there is no
connect, no playback and no occupancy lookup, regardless of occupancy. -/
theorem maintenance_window_blocks (env : ExecEnv) (event : Event)
    (channelId : String) (t : LocalTime)
    (h : isMaintenanceWindow env.now = true) :
    executeEventForChannel env event channelId =
      (ExecResult.skippedMaintenance, []) ∧
    (isMaintenanceWindow t = true ↔
      t.dayOfWeek = 2 ∧ 810 ≤ t.hours * 60 + t.minutes ∧
        t.hours * 60 + t.minutes < 1170) := by
  constructor
  · simp [executeEventForChannel, h]
  · simp [isMaintenanceWindow, and_assoc]

/-- Evaluation witness for the maintenance window theorem at Tuesday
14:00. -/
theorem maintenance_window_blocks_witness :
    isMaintenanceWindow
      ({ baseEnv with
          now := { dayOfWeek := 2, hours := 14, minutes := 0 } } :
        ExecEnv).now = true ∧
    (executeEventForChannel
        { baseEnv with now := { dayOfWeek := 2, hours := 14, minutes := 0 } }
        sampleEvent ("c1") = (ExecResult.skippedMaintenance, []) ∧
      (isMaintenanceWindow { dayOfWeek := 2, hours := 14, minutes := 0 } =
          true ↔
        (2 : Nat) = 2 ∧ 810 ≤ 14 * 60 + 0 ∧ 14 * 60 + 0 < 1170)) :=
  ⟨by decide,
    maintenance_window_blocks
      { baseEnv with now := { dayOfWeek := 2, hours := 14, minutes := 0 } }
      sampleEvent ("c1") { dayOfWeek := 2, hours := 14, minutes := 0 }
      (by decide)⟩

/-- Helper for the cleanup theorem: behaviour of the post-gate pipeline
tail with respect to the disconnect effect. -/
theorem runAfterGates_disconnect_spec (env : ExecEnv) (event : Event)
    (channelId : String) (eff0 : List Effect)
    (h0 : ∀ g, Effect.disconnect g ∉ eff0) :
    (∀ ch s, env.fetchChannel channelId = some ch →
      env.connectRes channelId = ConnectOutcome.ok s →
      Effect.disconnect ch.guildId ∈
        (runAfterGates env event channelId eff0).2) ∧
    ((env.fetchChannel channelId = none ∨
        ∀ s, env.connectRes channelId ≠ ConnectOutcome.ok s) →
      ∀ g, Effect.disconnect g ∉
        (runAfterGates env event channelId eff0).2) := by
  constructor
  · intro ch s hf hc
    unfold runAfterGates
    rw [hf, hc]
    cases hres : resolveAsset env event with
    | error e => simp
    | ok path =>
      cases hp : env.playback path with
      | error e => simp [hp]
      | ok u => simp [hp]
  · intro hno g
    unfold runAfterGates
    cases hf : env.fetchChannel channelId with
    | none => exact h0 g
    | some ch =>
      rcases hno with hno | hno
      · rw [hf] at hno; cases hno
      · cases hc : env.connectRes channelId with
        | throws => simp [h0 g]
        | nullConn => simp [h0 g]
        | ok s => exact absurd hc (hno s)

/-- C2: whenever a voice session is obtained (the channel lookup succeeds
and connect returns a session), a disconnect request for that guild appears
in the effect trace on every exit path, for every asset-resolution and
playback outcome; and when the lookup or the connect fails, no disconnect
request is ever issued. -/
theorem disconnect_guaranteed (env : ExecEnv) (event : Event)
    (channelId : String) :
    (∀ ch s, isMaintenanceWindow env.now = false →
      (event.requireUsers ≠ some false → env.hasUsers channelId = true) →
      env.fetchChannel channelId = some ch →
      env.connectRes channelId = ConnectOutcome.ok s →
      Effect.disconnect ch.guildId ∈
        (executeEventForChannel env event channelId).2) ∧
    ((env.fetchChannel channelId = none ∨
        ∀ s, env.connectRes channelId ≠ ConnectOutcome.ok s) →
      ∀ g, Effect.disconnect g ∉
        (executeEventForChannel env event channelId).2) := by
  constructor
  · intro ch s hm hu hf hc
    unfold executeEventForChannel
    rw [hm]
    by_cases hreq : event.requireUsers = some false
    · simp only [hreq, bne_self_eq_false, if_neg, Bool.false_eq_true,
        if_false]
      exact (runAfterGates_disconnect_spec env event channelId []
        (by intro g hg; cases hg)).1 ch s hf hc
    · have hb : (event.requireUsers != some false) = true := by
        simpa [bne_iff_ne] using hreq
      simp only [hb, hu hreq, if_true, Bool.false_eq_true, if_false]
      exact (runAfterGates_disconnect_spec env event channelId
        [Effect.checkUsers channelId] (by intro g hg; simp at hg)).1
        ch s hf hc
  · intro hno g
    unfold executeEventForChannel
    by_cases hm : isMaintenanceWindow env.now
    · simp [hm]
    · by_cases hreq : event.requireUsers = some false
      · simp only [hm, hreq, bne_self_eq_false, Bool.false_eq_true,
          if_false]
        exact (runAfterGates_disconnect_spec env event channelId []
          (by intro g2 hg; cases hg)).2 hno g
      · have hb : (event.requireUsers != some false) = true := by
          simpa [bne_iff_ne] using hreq
        by_cases husers : env.hasUsers channelId
        · simp only [hm, hb, husers, if_true, Bool.false_eq_true, if_false]
          exact (runAfterGates_disconnect_spec env event channelId
            [Effect.checkUsers channelId] (by intro g2 hg; simp at hg)).2
            hno g
        · simp [hm, hb, husers]

/-- Evaluation witness for the cleanup theorem: in the concrete base
environment the session is obtained and the disconnect request for the
guild appears in the trace. -/
theorem disconnect_guaranteed_witness :
    baseEnv.fetchChannel ("c1") = some { guildId := "g1" } ∧
    baseEnv.connectRes ("c1") = ConnectOutcome.ok 1 ∧
    Effect.disconnect ("g1") ∈
      (executeEventForChannel baseEnv sampleEvent ("c1")).2 :=
  ⟨rfl, rfl,
    (disconnect_guaranteed baseEnv sampleEvent ("c1")).1
      { guildId := "g1" } 1 (by decide) (fun _ => rfl) rfl rfl⟩

/-- Helper for the idempotent-connect theorem: a fresh join installs the
new session in the registry, and an immediately following connect for the
same guild and channel returns that session unchanged without opening a
new transport session. -/
theorem attemptJoin_then_connect (st : VoiceState) (g c : String)
    (r2 : Bool) :
    ∃ s st1, attemptJoin st g c true = (Except.ok s, st1, true) ∧
      connectToChannel st1 g c r2 = (Except.ok s, st1, false) ∧
      st1.registry g = some s := by
  refine ⟨{ sessionId := st.nextId, channelId := c }, _, rfl, ?_, ?_⟩
  · simp [connectToChannel, attemptJoin]
  · simp [attemptJoin]

/-- C3: a first successful connect for a guild and channel yields a
session, and a second connect for the same guild and channel returns the
identical session object with the manager state unchanged and without
opening a new transport session; the registry keeps at most one session
per guild throughout. -/
theorem connect_idempotent (st : VoiceState) (g c : String) (r2 : Bool) :
    ∃ s st1 o1,
      connectToChannel st g c true = (Except.ok s, st1, o1) ∧
      connectToChannel st1 g c r2 = (Except.ok s, st1, false) ∧
      st1.registry g = some s := by
  cases hr : st.registry g with
  | some ex =>
    by_cases hch : ex.channelId = c
    · exact ⟨ex, st, false, by simp [connectToChannel, hr, hch],
        by simp [connectToChannel, hr, hch], hr⟩
    · obtain ⟨s, st1, h1, h2, h3⟩ := attemptJoin_then_connect st g c r2
      exact ⟨s, st1, true, by simp [connectToChannel, hr, hch, h1], h2, h3⟩
  | none =>
    obtain ⟨s, st1, h1, h2, h3⟩ := attemptJoin_then_connect st g c r2
    exact ⟨s, st1, true, by simp [connectToChannel, hr, h1], h2, h3⟩

/-- Concrete voice manager state with one live session, used by the
teardown witness. -/
def sampleVoiceState : VoiceState :=
  { registry := fun g =>
      if g = "g1" then some { sessionId := 1, channelId := "c1" } else none,
    connections := fun g =>
      if g = "g1" then some { sessionId := 1, channelId := "c1" } else none,
    nextId := 2, pending := [], destroys := 0 }

/-- C6: two disconnect calls for the same guild inside the grace delay
schedule two teardown callbacks and neither call throws; when both
callbacks fire, the transport teardown is invoked exactly once, because the
first firing deregisters the session and the second firing finds none. -/
theorem disconnect_twice_single_teardown (st : VoiceState) (g : String)
    (s : Session) (h : st.registry g = some s) :
    (disconnectFromChannel (disconnectFromChannel st g) g).pending =
      st.pending ++ [g, g] ∧
    (fireDisconnectTimer
        (fireDisconnectTimer
          (disconnectFromChannel (disconnectFromChannel st g) g) g)
        g).destroys = st.destroys + 1 := by
  constructor <;> simp [disconnectFromChannel, fireDisconnectTimer, h]

/-- Evaluation witness for the single-teardown theorem on a concrete
state holding one session. -/
theorem disconnect_twice_single_teardown_witness :
    sampleVoiceState.registry ("g1") =
      some { sessionId := 1, channelId := "c1" } ∧
    ((disconnectFromChannel
          (disconnectFromChannel sampleVoiceState ("g1")) ("g1")).pending =
        sampleVoiceState.pending ++ ["g1", "g1"] ∧
      (fireDisconnectTimer
          (fireDisconnectTimer
            (disconnectFromChannel
              (disconnectFromChannel sampleVoiceState ("g1")) ("g1"))
            ("g1"))
          ("g1")).destroys = sampleVoiceState.destroys + 1) :=
  ⟨by decide,
    disconnect_twice_single_teardown sampleVoiceState ("g1")
      { sessionId := 1, channelId := "c1" } (by decide)⟩

/-- C7: with caching enabled, a second generation request for the same
tuple returns the identical file path as the first and leaves the state
untouched, in particular without invoking the synthesis collaborator
again: the cached artifact is returned immediately. -/
theorem tts_second_request_identical (cfg : TTSConfig) (st : TTSState)
    (text : String) (opts : GenOptions) (ok2 : Bool)
    (huse : opts.useCache ≠ some false) :
    ∃ p, (generate cfg st text opts true).1 = Except.ok p ∧
      generate cfg (generate cfg st text opts true).2 text opts ok2 =
        (Except.ok p, (generate cfg st text opts true).2) := by
  have hb : (opts.useCache != some false) = true := by
    simpa [bne_iff_ne] using huse
  cases hc : getCached cfg st.files text (opts.voice.getD cfg.voice) with
  | some cached =>
    exact ⟨cached, by simp [generate, hb, hc], by simp [generate, hb, hc]⟩
  | none =>
    have h2 :
        getCached cfg
          (st.files ++
            [pathJoin cfg.cacheDir
              (getCacheKey cfg text (opts.voice.getD cfg.voice))])
          text (opts.voice.getD cfg.voice) =
        some
          (pathJoin cfg.cacheDir
            (getCacheKey cfg text (opts.voice.getD cfg.voice))) := by
      simp [getCached]
    exact ⟨pathJoin cfg.cacheDir
        (getCacheKey cfg text (opts.voice.getD cfg.voice)),
      by simp [generate, hb, hc], by simp [generate, hb, hc, h2]⟩

/-- Evaluation witness for the cache idempotence theorem at a concrete
configuration, empty cache and default options. -/
theorem tts_second_request_identical_witness :
    (({ voice := none, rate := none, pitch := none, useCache := none } :
        GenOptions).useCache ≠ some false) ∧
    (∃ p,
      (generate defaultTTSConfig { files := [], synthCalls := 0 } ("hola")
          { voice := none, rate := none, pitch := none, useCache := none }
          true).1 = Except.ok p ∧
      generate defaultTTSConfig
          (generate defaultTTSConfig { files := [], synthCalls := 0 }
            ("hola")
            { voice := none, rate := none, pitch := none, useCache := none }
            true).2 ("hola")
          { voice := none, rate := none, pitch := none, useCache := none }
          true =
        (Except.ok p,
          (generate defaultTTSConfig { files := [], synthCalls := 0 }
            ("hola")
            { voice := none, rate := none, pitch := none, useCache := none }
            true).2)) :=
  ⟨by decide,
    tts_second_request_identical defaultTTSConfig
      { files := [], synthCalls := 0 } ("hola")
      { voice := none, rate := none, pitch := none, useCache := none } true
      (by decide)⟩

set_option maxRecDepth 10000 in
/-- Counterexample to C8 as stated: two generation requests that differ
only in the rate option produce the same cache file path, because the
cache key reads rate and pitch from the process configuration and ignores
the per-request options. -/
theorem cache_key_ignores_rate_cex :
    (generate defaultTTSConfig { files := [], synthCalls := 0 } ("hola")
        { voice := none, rate := some ("+10%"), pitch := none,
          useCache := none } true).1 =
      (generate defaultTTSConfig { files := [], synthCalls := 0 } ("hola")
        { voice := none, rate := some ("-10%"), pitch := none,
          useCache := none } true).1 ∧
    (some ("+10%") : Option String) ≠ some ("-10%") :=
  ⟨rfl, by decide⟩

/-- C8 amended: the speech cache file name is a deterministic function of
exactly the text, the effective voice and the process-wide configured rate
and pitch: the key is invariant under every other configuration field, and
the per-request rate and pitch options are ignored by the key, so two
requests differing only in rate or pitch produce the same cache file name.
Distinct tuples are not guaranteed distinct names: the fingerprint joins
its components with an unescaped pipe separator, so the distinct pairs of
text a|b with voice c and text a with voice b|c produce the same name. -/
theorem cache_key_amended (cfg : TTSConfig) (st : TTSState) (text : String)
    (v : Option String) (r1 p1 r2 p2 : Option String) (u : Option Bool)
    (k : Bool) :
    (∀ (c2 : TTSConfig) (t v2 : String),
      getCacheKey { c2 with rate := cfg.rate, pitch := cfg.pitch } t v2 =
        getCacheKey cfg t v2) ∧
    (generate cfg st text
        { voice := v, rate := r1, pitch := p1, useCache := u } k).1 =
      (generate cfg st text
        { voice := v, rate := r2, pitch := p2, useCache := u } k).1 ∧
    (getCacheKey defaultTTSConfig ("a|b") ("c") =
        getCacheKey defaultTTSConfig ("a") ("b|c") ∧
      ((("a|b" : String), ("c" : String)) ≠ (("a" : String), ("b|c" : String)))) :=
  ⟨fun _ _ _ => rfl, rfl, rfl, by decide⟩

/-- Helper: a play with a registered error observer gets its promise
rejected when the engine reports an error. -/
theorem fireError_rejects (st : PlayerState) (p : Nat)
    (h : (p, ObsKind.err) ∈ st.observers) :
    (p, Outcome.rejected) ∈ (fireError st).completions := by
  unfold fireError
  refine List.mem_append.mpr (Or.inr ?_)
  exact List.mem_map.mpr
    ⟨p,
      List.mem_map.mpr
        ⟨(p, ObsKind.err), List.mem_filter.mpr ⟨h, rfl⟩, rfl⟩,
      rfl⟩

/-- Helper: a play with a registered idle observer gets its promise
resolved when the engine reports idle. -/
theorem fireIdle_resolves (st : PlayerState) (p : Nat)
    (h : (p, ObsKind.idle) ∈ st.observers) :
    (p, Outcome.resolved) ∈ (fireIdle st).completions := by
  unfold fireIdle
  refine List.mem_append.mpr (Or.inr ?_)
  exact List.mem_map.mpr
    ⟨p,
      List.mem_map.mpr
        ⟨(p, ObsKind.idle), List.mem_filter.mpr ⟨h, rfl⟩, rfl⟩,
      rfl⟩

/-- Helper: after an engine error, no observer of a play that had an error
observer registered remains on the engine. -/
theorem fireError_detaches (st : PlayerState) (p : Nat)
    (h : (p, ObsKind.err) ∈ st.observers) :
    (fireError st).observers.filter (fun o => o.1 == p) = [] := by
  unfold fireError
  rw [List.filter_eq_nil_iff]
  intro o ho hop
  have hmem := List.mem_filter.mp ho
  have hne := hmem.2
  have hop2 : o.1 = p := by simpa using hop
  have hpin :
      p ∈ (st.observers.filter (fun o => o.2 == ObsKind.err)).map
        (fun o => o.1) :=
    List.mem_map.mpr
      ⟨(p, ObsKind.err), List.mem_filter.mpr ⟨h, rfl⟩, rfl⟩
  rw [hop2] at hne
  simp [hpin] at hne

/-- Helper: after the engine reports idle, no observer of a play that had
an idle observer registered remains on the engine. -/
theorem fireIdle_detaches (st : PlayerState) (p : Nat)
    (h : (p, ObsKind.idle) ∈ st.observers) :
    (fireIdle st).observers.filter (fun o => o.1 == p) = [] := by
  unfold fireIdle
  rw [List.filter_eq_nil_iff]
  intro o ho hop
  have hmem := List.mem_filter.mp ho
  have hne := hmem.2
  have hop2 : o.1 = p := by simpa using hop
  have hpin :
      p ∈ (st.observers.filter (fun o => o.2 == ObsKind.idle)).map
        (fun o => o.1) :=
    List.mem_map.mpr
      ⟨(p, ObsKind.idle), List.mem_filter.mpr ⟨h, rfl⟩, rfl⟩
  rw [hop2] at hne
  simp [hpin] at hne

/-- C9: when the engine reports an error while a play is pending, the
promise of that play rejects; after either completion signal both
completion observers registered by that play are detached from the engine;
and the completion signal of a subsequent play resolves normally,
unaffected by the earlier play. -/
theorem playfile_error_rejects_and_detaches (st st1 : PlayerState) (p : Nat)
    (h : playFile st true p = Except.ok st1) :
    (p, Outcome.rejected) ∈ (fireError st1).completions ∧
    (fireError st1).observers.filter (fun o => o.1 == p) = [] ∧
    (fireIdle st1).observers.filter (fun o => o.1 == p) = [] ∧
    (∀ st2 q, playFile (fireError st1) true q = Except.ok st2 →
      (q, Outcome.resolved) ∈ (fireIdle st2).completions) := by
  have h1 : st1 =
      { st with
        observers :=
          st.observers ++ [(p, ObsKind.idle), (p, ObsKind.err)] } := by
    unfold playFile at h
    simpa using h.symm
  have herr : (p, ObsKind.err) ∈ st1.observers := by
    rw [h1]; simp
  have hidle : (p, ObsKind.idle) ∈ st1.observers := by
    rw [h1]; simp
  refine ⟨fireError_rejects st1 p herr, fireError_detaches st1 p herr,
    fireIdle_detaches st1 p hidle, ?_⟩
  intro st2 q h2
  have h3 : st2 =
      { fireError st1 with
        observers :=
          (fireError st1).observers ++
            [(q, ObsKind.idle), (q, ObsKind.err)] } := by
    unfold playFile at h2
    simpa using h2.symm
  have hq : (q, ObsKind.idle) ∈ st2.observers := by
    rw [h3]; simp
  exact fireIdle_resolves st2 q hq

/-- Evaluation witness for the player observer theorem starting from an
engine with no registered observers. -/
theorem playfile_error_rejects_and_detaches_witness :
    playFile { observers := [], completions := [] } true 1 =
      Except.ok
        { observers := [(1, ObsKind.idle), (1, ObsKind.err)],
          completions := [] } ∧
    ((1, Outcome.rejected) ∈
        (fireError
          { observers := [(1, ObsKind.idle), (1, ObsKind.err)],
            completions := [] }).completions ∧
      (fireError
          { observers := [(1, ObsKind.idle), (1, ObsKind.err)],
            completions := [] }).observers.filter (fun o => o.1 == 1) =
        [] ∧
      (fireIdle
          { observers := [(1, ObsKind.idle), (1, ObsKind.err)],
            completions := [] }).observers.filter (fun o => o.1 == 1) =
        [] ∧
      (∀ st2 q,
        playFile
            (fireError
              { observers := [(1, ObsKind.idle), (1, ObsKind.err)],
                completions := [] })
            true q = Except.ok st2 →
        (q, Outcome.resolved) ∈ (fireIdle st2).completions)) :=
  ⟨rfl,
    playfile_error_rejects_and_detaches
      { observers := [], completions := [] }
      { observers := [(1, ObsKind.idle), (1, ObsKind.err)],
        completions := [] }
      1 rfl⟩

/-- C10: the manual diagnostic trigger looks an event up by name in the
full event list, so a disabled event found there is executed through the
per-channel pipeline for every configured channel, although it is never
part of the enabled subset registered with timers at startup. -/
theorem trigger_runs_disabled_event (env : ExecEnv)
    (channelIds : List String) (evts : List Event) (eventName : String)
    (e : Event) (cronValid : String → Bool)
    (hfind : evts.find? (fun x => x.name == eventName) = some e)
    (hdis : e.enabled = false) :
    triggerEvent env channelIds evts eventName =
      some (channelIds.map (fun c => executeEventForChannel env e c)) ∧
    e ∉ getEnabledEvents evts ∧
    ((∀ x ∈ evts, x.name = e.name → x = e) →
      e.name ∉ startupScheduledJobs cronValid evts) := by
  refine ⟨?_, ?_, ?_⟩
  · unfold triggerEvent executeEventForAllChannels
    rw [hfind]
  · intro hmem
    have hen := (List.mem_filter.mp hmem).2
    rw [hdis] at hen
    cases hen
  · intro huniq hmem
    unfold startupScheduledJobs at hmem
    obtain ⟨x, hx, hxname⟩ := List.mem_map.mp hmem
    have hxe : x ∈ getEnabledEvents evts := (List.mem_filter.mp hx).1
    have hxen : x.enabled = true := (List.mem_filter.mp hxe).2
    have hxev : x ∈ evts := (List.mem_filter.mp hxe).1
    have hxeq : x = e := huniq x hxev hxname
    rw [hxeq, hdis] at hxen
    cases hxen

/-- Concrete disabled event used by the diagnostic trigger witness. -/
def disabledEvent : Event :=
  { name := "Night Owl", cron := "0 0 3 * * *", type := EventType.audio,
    content := "./audio/owl.mp3", enabled := false, requireUsers := none }

/-- Evaluation witness for the diagnostic trigger theorem on a one-event
list holding only a disabled event. -/
theorem trigger_runs_disabled_event_witness :
    [disabledEvent].find? (fun x => x.name == ("Night Owl")) =
      some disabledEvent ∧
    disabledEvent.enabled = false ∧
    (triggerEvent baseEnv [("c1")] [disabledEvent] ("Night Owl") =
        some
          ([("c1")].map
            (fun c => executeEventForChannel baseEnv disabledEvent c)) ∧
      disabledEvent ∉ getEnabledEvents [disabledEvent] ∧
      ((∀ x ∈ [disabledEvent], x.name = disabledEvent.name →
          x = disabledEvent) →
        disabledEvent.name ∉
          startupScheduledJobs (fun _ => true) [disabledEvent])) :=
  ⟨by decide, by decide,
    trigger_runs_disabled_event baseEnv [("c1")] [disabledEvent]
      ("Night Owl") disabledEvent (fun _ => true) (by decide) (by decide)⟩



